import Mathlib

/-!
Shallow embedding of the analysis core of resumeeee.py (the Resume Analyzer
repository): the fallback Flesch reading-ease scorer, the extension dispatch
of extract_text, and analyze_resume with its seven heuristic checks.

Text is modelled as List Char. Python regexes are embedded as executable
backtracking matchers over List Char (existence-of-a-match semantics, which
is what re.search reports). Python floats are modelled by exact rational
arithmetic (ℚ); Python round(x, 1) is modelled by round-half-to-even on ℚ.
Python int(x) truncates toward zero, modelled by Int.tdiv of the exact value.
-/

/-- Python str whitespace characters (the ASCII ones), as matched by the
regex class backslash-s and used by str.split(). -/
def isPySpace (c : Char) : Bool :=
  c == ' ' || c == '\t' || c == '\n' || c == '\r' || c == '\x0b' || c == '\x0c'

/-- Regex class backslash-S: any non-whitespace character. -/
def isNonspace (c : Char) : Bool := !(isPySpace c)

/-- Regex class backslash-w: word characters (ASCII letters, digits, underscore). -/
def isWordChar (c : Char) : Bool := c.isAlpha || c.isDigit || c == '_'

/-- Regex class [aeiouyAEIOUY] of the fallback syllable counter. -/
def isVowelChar (c : Char) : Bool := "aeiouyAEIOUY".data.contains c

/-- Does the first list occur at the head of the second one? -/
def leadsWith : List Char → List Char → Bool
  | [], _ => true
  | _ :: _, [] => false
  | a :: as, b :: bs => a == b && leadsWith as bs

/-- Python substring test: needle in hay. -/
def occursIn (needle : List Char) : List Char → Bool
  | [] => leadsWith needle []
  | c :: t => leadsWith needle (c :: t) || occursIn needle t

/-- Python str.endswith. -/
def endsWith (suffix tail : List Char) : Bool :=
  leadsWith suffix.reverse tail.reverse

/-- Python str.lower (ASCII). -/
def pyLower (l : List Char) : List Char := l.map Char.toLower

/-- Counts maximal runs of word characters: the number of matches the regex
one-or-more-word-characters produces under re.findall, i.e. the word count of
analyze_resume and of the fallback scorer. The flag records whether the
previous character was a word character. -/
def wcAux : Bool → List Char → Nat
  | _, [] => 0
  | inw, c :: t =>
    if isWordChar c then (if inw then wcAux true t else wcAux true t + 1)
    else wcAux false t

/-- len(re.findall word-runs, text): the number of maximal word-character runs. -/
def wordCount (l : List Char) : Nat := wcAux false l

/-- Helper of pySplit: accumulates the current field in reverse. -/
def splitAux (acc : List Char) : List Char → List (List Char)
  | [] => if acc.isEmpty then [] else [acc.reverse]
  | c :: t =>
    if isPySpace c then
      (if acc.isEmpty then splitAux [] t else acc.reverse :: splitAux [] t)
    else splitAux (c :: acc) t

/-- Python text.split(): split on whitespace runs, dropping empty fields. -/
def pySplit (l : List Char) : List (List Char) := splitAux [] l

/-- Python (n or 1) for a nonnegative count n. -/
def orOne (n : Nat) : Nat := if n = 0 then 1 else n

/-- Python round-half-to-even of a rational to an integer (the semantics of
the builtin round). -/
def rndHalfEven (q : ℚ) : ℤ :=
  let f : ℤ := ⌊q⌋
  let r : ℚ := q - (f : ℚ)
  if r < 1/2 then f
  else if 1/2 < r then f + 1
  else if f % 2 = 0 then f else f + 1

/-- Python round(x, 1): round to one decimal place, half to even. -/
def round1 (q : ℚ) : ℚ := (rndHalfEven (q * 10) : ℚ) / 10

/-- Round-half-to-even of the fraction n / d (for 0 < d) computed purely in
integer arithmetic: Int.ediv and the remainder are floor division and its
remainder for a positive divisor. Proved to agree with rndHalfEven in
rndHalfEvenFrac_eq. -/
def rndHalfEvenFrac (n d : ℤ) : ℤ :=
  let f : ℤ := Int.ediv n d
  let r : ℤ := n - f * d
  if 2 * r < d then f
  else if d < 2 * r then f + 1
  else if f % 2 = 0 then f else f + 1

/-- len(re.findall of the class [.!?]) of line 11: the count of the
characters . ! ? in the text. -/
def sentenceMarks (l : List Char) : Nat :=
  (l.filter (fun c => c == '.' || c == '!' || c == '?')).length

/-- Line 13: the sum over whitespace-split tokens of their vowel characters. -/
def syllableSum (l : List Char) : Nat :=
  ((pySplit l).map (fun w => (w.filter isVowelChar).length)).sum

/-- The fallback Flesch reading-ease scorer of resumeeee.py lines 10-15:
sentences = count of the characters . ! ? (or 1), words = count of
word-character runs (or 1), syllables = sum over whitespace-split tokens of
their vowel characters (or 1); the score is the Flesch formula rounded to one
decimal place. Python's binary floating point is modelled by exact rational
arithmetic. -/
def flesch_reading_ease (text : List Char) : ℚ :=
  let sentences : Nat := orOne (sentenceMarks text)
  let words : Nat := orOne (wordCount text)
  let syllables : Nat := orOne (syllableSum text)
  round1 ((206.835 : ℚ) - (1.015 : ℚ) * ((words : ℚ) / (sentences : ℚ))
    - (84.6 : ℚ) * ((syllables : ℚ) / (words : ℚ)))

/-- The same scorer, returning tenths of a point as an integer (the fallback
always returns a value with one decimal place): ten times the Flesch formula
over the common denominator 1000 * sentences * words, rounded half to even.
This integer form evaluates inside the kernel; flesch_tenths_spec proves it
equal to flesch_reading_ease. -/
def fleschTenths (text : List Char) : ℤ :=
  let s : ℤ := orOne (sentenceMarks text)
  let w : ℤ := orOne (wordCount text)
  let sy : ℤ := orOne (syllableSum text)
  rndHalfEvenFrac (2068350 * s * w - 10150 * w * w - 846000 * s * sy) (1000 * s * w)

/-- Backtracking matcher for p+ followed by a continuation: consume one or
more characters satisfying p, trying the continuation after each. Reports
whether some way of matching succeeds, which is the existence semantics of a
backtracking regex engine. -/
def plusThen (p : Char → Bool) (k : List Char → Bool) : List Char → Bool
  | [] => false
  | c :: t => p c && (k t || plusThen p k t)

/-- Backtracking matcher for p* followed by a continuation. -/
def starThen (p : Char → Bool) (k : List Char → Bool) : List Char → Bool
  | [] => k []
  | c :: t => k (c :: t) || (p c && starThen p k t)

/-- Backtracking matcher for p{n,} followed by a continuation: at least n
characters satisfying p, then the continuation. -/
def repThen (p : Char → Bool) : Nat → (List Char → Bool) → List Char → Bool
  | 0, k, l => starThen p k l
  | _ + 1, _, [] => false
  | n + 1, k, c :: t => p c && repThen p n k t

/-- re.search: does the pattern match starting at some position of the text? -/
def reSearch (matchAt : List Char → Bool) : List Char → Bool
  | [] => matchAt []
  | c :: t => matchAt (c :: t) || reSearch matchAt t

/-- The email pattern of line 60, nonspace+ at-sign nonspace+ dot nonspace+,
anchored at the current position. -/
def emailMatchAt : List Char → Bool :=
  plusThen isNonspace (fun r1 =>
    match r1 with
    | '@' :: r2 =>
      plusThen isNonspace (fun r3 =>
        match r3 with
        | '.' :: r4 => plusThen isNonspace (fun _ => true) r4
        | _ => false) r2
    | _ => false)

/-- re.search of the email regex of line 60 over the whole text. -/
def emailSearch (l : List Char) : Bool := reSearch emailMatchAt l

/-- Regex class [digits whitespace hyphen] of the phone pattern. -/
def isPhoneMid (c : Char) : Bool := c.isDigit || isPySpace c || c == '-'

/-- The phone pattern of line 62 after the optional leading plus: a digit,
then eight or more characters of the class [digits whitespace hyphen], then a
digit. -/
def phoneDigitThen : List Char → Bool
  | [] => false
  | c :: t =>
    c.isDigit && repThen isPhoneMid 8
      (fun r => match r with | d :: _ => d.isDigit | [] => false) t

/-- The full phone pattern of line 62, optional plus then phoneDigitThen,
anchored at the current position. -/
def phoneMatchAt (l : List Char) : Bool :=
  (match l with | '+' :: t => phoneDigitThen t | _ => false) || phoneDigitThen l

/-- re.search of the phone regex of line 62 over the whole text. -/
def phoneSearch (l : List Char) : Bool := reSearch phoneMatchAt l

/-- The suggestion strings appended by analyze_resume, abstracted to tags;
missingSection carries the section name, matching the per-section message. -/
inductive Sug where
  | missingSection (s : List Char)
  | tooShort
  | tooLong
  | noVerbs
  | noKeywords
  | noEmail
  | noPhone
  | lowReadability
deriving DecidableEq

/-- required_sections of line 41. -/
def required_sections : List (List Char) :=
  ["education".data, "experience".data, "projects".data, "skills".data]

/-- action_verbs of line 52. -/
def action_verbs : List (List Char) :=
  ["developed".data, "led".data, "created".data, "designed".data,
   "managed".data, "implemented".data, "analyzed".data, "organized".data]

/-- tech_keywords of line 56. -/
def tech_keywords : List (List Char) :=
  ["python".data, "java".data, "sql".data, "flask".data, "spring".data,
   "react".data, "docker".data, "aws".data, "html".data, "css".data,
   "javascript".data]

/-- Lines 42-44: one suggestion per required section absent from the
lowercased text, in list order. -/
def sectionSugs (lower_text : List Char) : List Sug :=
  (required_sections.filter (fun s => !(occursIn s lower_text))).map Sug.missingSection

/-- Lines 46-50: too short below 300 words, else too long above 900. -/
def lengthSugs (word_count : Nat) : List Sug :=
  if word_count < 300 then [Sug.tooShort]
  else if word_count > 900 then [Sug.tooLong]
  else []

/-- Lines 52-54: one suggestion when no action verb occurs. -/
def verbSugs (lower_text : List Char) : List Sug :=
  if !(action_verbs.any (fun v => occursIn v lower_text)) then [Sug.noVerbs] else []

/-- Lines 56-58: one suggestion when no tech keyword occurs. -/
def keywordSugs (lower_text : List Char) : List Sug :=
  if !(tech_keywords.any (fun k => occursIn k lower_text)) then [Sug.noKeywords] else []

/-- Lines 60-61: one suggestion when the email regex finds no match. -/
def emailSugs (text : List Char) : List Sug :=
  if !(emailSearch text) then [Sug.noEmail] else []

/-- Lines 62-63: one suggestion when the phone regex finds no match. -/
def phoneSugs (text : List Char) : List Sug :=
  if !(phoneSearch text) then [Sug.noPhone] else []

/-- Lines 65-67: one suggestion when the readability score is below 50; the
score is carried in tenths, so the threshold is 500 tenths. -/
def readabilitySugs (readability_tenths : ℤ) : List Sug :=
  if readability_tenths < 500 then [Sug.lowReadability] else []

/-- Lines 69-71: passed = 7 - len(suggestions) (an integer, possibly
negative); score = max(0, int((passed / 7) * 100)). Python int truncates
toward zero, and for every reachable passed in -3..7 the double computation
(passed / 7) * 100 truncates to the same integer as the exact rational
100 * passed / 7, so the score is Int.tdiv (passed * 100) 7 clamped at 0. -/
def pyScore (numSuggestions : Nat) : Nat :=
  let passed : ℤ := 7 - (numSuggestions : ℤ)
  (max 0 (Int.tdiv (passed * 100) 7)).toNat

/-- The tuple returned by analyze_resume; readability is the reading-ease
score in tenths of a point (the fallback scorer always returns one decimal). -/
structure AnalysisResult where
  suggestions : List Sug
  wordCount : Nat
  readability : ℤ
  score : Nat
deriving DecidableEq

/-- analyze_resume of lines 37-72: the seven checks in source order over the
lowercased text (sections, length, verbs, keywords, email, phone,
readability), then the score from the number of suggestions. -/
def analyze_resume (text : List Char) : AnalysisResult :=
  let lower_text := pyLower text
  let word_count := wordCount text
  let readability_score := fleschTenths text
  let suggestions :=
    sectionSugs lower_text ++ lengthSugs word_count ++ verbSugs lower_text
      ++ keywordSugs lower_text ++ emailSugs text ++ phoneSugs text
      ++ readabilitySugs readability_score
  { suggestions := suggestions, wordCount := word_count,
    readability := readability_score, score := pyScore suggestions.length }

/-- extract_text of lines 29-35, with the two extraction backends (pdfplumber
and docx2txt, external libraries outside this repository) as parameters:
dispatch on the filename suffix, returning the empty text for any other
extension. -/
def extract_text (pdfBackend docxBackend : Unit → List Char) (name : List Char) : List Char :=
  if endsWith ".pdf".data name then pdfBackend ()
  else if endsWith ".docx".data name then docxBackend ()
  else []

/-- A concrete resume text that passes every check except the length check
(21 words, below 300): the only suggestion is tooShort. -/
def oneSugText : List Char :=
  ("Education experience projects skills. I developed a python app. Email a@b.c or +1 555-123-4567. It is ok.").data

/-- A concrete text failing all seven checks: one heavy word, readability far
below 50, none of the sections, verbs, keywords, email or phone. -/
def allFailText : List Char := "aeiou.".data

/-- A concrete text passing all seven checks: all sections, an action verb, a
tech keyword, email, phone, 301 words, readability far above 50. -/
def allPassText : List Char :=
  ("education experience projects skills developed python a@b.c +1 555-123-4567. ").data
    ++ (List.replicate 32 ("a a a a a a a a a. ").data).flatten

set_option maxRecDepth 40000

theorem orOne_pos (n : Nat) : 0 < orOne n := by
  unfold orOne
  split <;> omega

theorem orOne_eq_max (n : Nat) : orOne n = max 1 n := by
  unfold orOne
  split <;> omega

/-- Round-half-even of the fraction n / d computed in integer arithmetic
agrees with round-half-even of the rational n / d. -/
theorem rndHalfEvenFrac_eq (n : ℤ) (d : ℕ) (hd : 0 < d) :
    rndHalfEvenFrac n (d : ℤ) = rndHalfEven ((n : ℚ) / (d : ℚ)) := by
  have hdq : (0 : ℚ) < (d : ℚ) := by exact_mod_cast hd
  have hdz : (0 : ℤ) < (d : ℤ) := by exact_mod_cast hd
  have hfl : ⌊(n : ℚ) / (d : ℚ)⌋ = Int.ediv n (d : ℤ) :=
    Rat.floor_intCast_div_natCast n d
  simp only [rndHalfEvenFrac, rndHalfEven, hfl]
  have hr : (n : ℚ) / (d : ℚ) - ((Int.ediv n (d : ℤ) : ℤ) : ℚ)
      = ((n - Int.ediv n (d : ℤ) * (d : ℤ) : ℤ) : ℚ) / (d : ℚ) := by
    push_cast
    field_simp
    ring
  rw [hr]
  have key1 : ∀ m : ℤ, ((m : ℚ) / (d : ℚ) < 1/2) ↔ (2 * m < (d : ℤ)) := by
    intro m
    rw [div_lt_div_iff₀ hdq (by norm_num : (0:ℚ) < 2), one_mul, mul_comm]
    exact_mod_cast Iff.rfl
  have key2 : ∀ m : ℤ, ((1:ℚ)/2 < (m : ℚ) / (d : ℚ)) ↔ ((d : ℤ) < 2 * m) := by
    intro m
    rw [div_lt_div_iff₀ (by norm_num : (0:ℚ) < 2) hdq, one_mul, mul_comm]
    exact_mod_cast Iff.rfl
  by_cases h1 : 2 * (n - Int.ediv n (d : ℤ) * (d : ℤ)) < (d : ℤ)
  · rw [if_pos h1, if_pos ((key1 _).mpr h1)]
  · rw [if_neg h1, if_neg (fun hq => h1 ((key1 _).mp hq))]
    by_cases h2 : (d : ℤ) < 2 * (n - Int.ediv n (d : ℤ) * (d : ℤ))
    · rw [if_pos h2, if_pos ((key2 _).mpr h2)]
    · rw [if_neg h2, if_neg (fun hq => h2 ((key2 _).mp hq))]

/-- The integer-tenths scorer refines the rational translation of the
fallback scorer: flesch_reading_ease is the tenths value divided by ten. -/
theorem flesch_tenths_spec (l : List Char) :
    flesch_reading_ease l = (fleschTenths l : ℚ) / 10 := by
  have hS := orOne_pos (sentenceMarks l)
  have hW := orOne_pos (wordCount l)
  have hSq : ((orOne (sentenceMarks l) : ℕ) : ℚ) ≠ 0 := by
    exact_mod_cast hS.ne'
  have hWq : ((orOne (wordCount l) : ℕ) : ℚ) ≠ 0 := by
    exact_mod_cast hW.ne'
  simp only [flesch_reading_ease, fleschTenths, round1]
  have hDcast : (1000 * (orOne (sentenceMarks l) : ℤ) * (orOne (wordCount l) : ℤ))
      = ((1000 * orOne (sentenceMarks l) * orOne (wordCount l) : ℕ) : ℤ) := by
    push_cast
    ring
  rw [hDcast, rndHalfEvenFrac_eq _ _ (by positivity)]
  congr 2
  congr 1
  rw [show (206.835 : ℚ) = 206835/1000 by norm_num,
    show (1.015 : ℚ) = 1015/1000 by norm_num,
    show (84.6 : ℚ) = 846/10 by norm_num]
  rw [eq_div_iff (by positivity)]
  push_cast
  field_simp
  ring

/-- The readability check of analyze_resume (tenths below 500) is exactly the
source comparison of the reading-ease score with 50. -/
theorem fleschTenths_lt_iff (l : List Char) :
    fleschTenths l < 500 ↔ flesch_reading_ease l < 50 := by
  rw [flesch_tenths_spec, div_lt_iff₀ (by norm_num : (0:ℚ) < 10)]
  norm_num
  exact_mod_cast Iff.rfl

theorem analyze_suggestions_eq (l : List Char) :
    (analyze_resume l).suggestions =
      sectionSugs (pyLower l) ++ lengthSugs (wordCount l) ++ verbSugs (pyLower l)
        ++ keywordSugs (pyLower l) ++ emailSugs l ++ phoneSugs l
        ++ readabilitySugs (fleschTenths l) := rfl

theorem analyze_score_eq (l : List Char) :
    (analyze_resume l).score = pyScore (analyze_resume l).suggestions.length := rfl

theorem analyze_wordCount_eq (l : List Char) :
    (analyze_resume l).wordCount = wordCount l := rfl

theorem analyze_readability_eq (l : List Char) :
    (analyze_resume l).readability = fleschTenths l := rfl

/-- The section check contributes at most four suggestions and every other
check at most one, so there are never more than ten suggestions. -/
theorem sugsLen_le_ten (l : List Char) : (analyze_resume l).suggestions.length ≤ 10 := by
  rw [analyze_suggestions_eq]
  simp only [List.length_append]
  have h1 : (sectionSugs (pyLower l)).length ≤ 4 := by
    unfold sectionSugs
    rw [List.length_map]
    exact List.length_filter_le _ _
  have h2 : (lengthSugs (wordCount l)).length ≤ 1 := by
    unfold lengthSugs
    split_ifs <;> simp
  have h3 : (verbSugs (pyLower l)).length ≤ 1 := by
    unfold verbSugs
    split_ifs <;> simp
  have h4 : (keywordSugs (pyLower l)).length ≤ 1 := by
    unfold keywordSugs
    split_ifs <;> simp
  have h5 : (emailSugs l).length ≤ 1 := by
    unfold emailSugs
    split_ifs <;> simp
  have h6 : (phoneSugs l).length ≤ 1 := by
    unfold phoneSugs
    split_ifs <;> simp
  have h7 : (readabilitySugs (fleschTenths l)).length ≤ 1 := by
    unfold readabilitySugs
    split_ifs <;> simp
  omega

/-- Claim C1 counterexample: on a text producing exactly one suggestion the
program returns score 85 (truncation of 600/7), not the claimed
max(0, round(100 * passed / 7)) = 86. -/
theorem score_round_cex :
    (analyze_resume oneSugText).suggestions.length = 1 ∧
    (analyze_resume oneSugText).score = 85 ∧
    ((analyze_resume oneSugText).score : ℤ) ≠
      max 0 (rndHalfEven
        ((100 * ((7 : ℚ) - ((analyze_resume oneSugText).suggestions.length : ℚ))) / 7)) := by
  have h1 : (analyze_resume oneSugText).suggestions.length = 1 := by decide
  have h2 : (analyze_resume oneSugText).score = 85 := by decide
  refine ⟨h1, h2, ?_⟩
  rw [h1, h2]
  have h3 : (100 * ((7 : ℚ) - ((1 : ℕ) : ℚ))) / 7 = ((600 : ℤ) : ℚ) / ((7 : ℕ) : ℚ) := by
    norm_num
  rw [h3, ← rndHalfEvenFrac_eq 600 7 (by norm_num)]
  decide

/-- Claim C1 (amended): for every input text, analyze returns
score = max(0, trunc(100 * passed / 7)) where passed = 7 - len(suggestions)
and trunc is truncation toward zero (Python int), and the result is an
integer in [0, 100]. -/
theorem score_trunc_formula (l : List Char) :
    ((analyze_resume l).score : ℤ)
      = max 0 (Int.tdiv ((7 - ((analyze_resume l).suggestions.length : ℤ)) * 100) 7) ∧
    (analyze_resume l).score ≤ 100 := by
  constructor
  · rw [analyze_score_eq]
    unfold pyScore
    exact Int.toNat_of_nonneg (le_max_left 0 _)
  · rw [analyze_score_eq]
    have hb := sugsLen_le_ten l
    generalize (analyze_resume l).suggestions.length = n at hb
    interval_cases n <;> decide

/-- Claim C8: for a filename ending in neither .pdf nor .docx, extract_text
returns the empty text, whatever the two extraction backends would return
(so neither backend is consulted). -/
theorem extract_text_unsupported (name : List Char) (pdfBackend docxBackend : Unit → List Char)
    (hp : endsWith ".pdf".data name = false)
    (hd : endsWith ".docx".data name = false) :
    extract_text pdfBackend docxBackend name = [] := by
  unfold extract_text
  rw [hp, hd]
  rfl

/-- Witness for C8 at the concrete filename resume.txt with two backends that
would return nonempty text. -/
theorem extract_text_unsupported_witness :
    endsWith ".pdf".data ("resume.txt".data) = false ∧
    extract_text (fun _ => ("PDF".data)) (fun _ => ("DOCX".data)) ("resume.txt".data) = [] :=
  ⟨by decide, extract_text_unsupported ("resume.txt".data) _ _ (by decide) (by decide)⟩

/-- Claim C10: on the empty string the analyzer reports word count 0,
readability 121.2 (1212 tenths, at least 500, so the readability rule adds no
suggestion), exactly 9 suggestions and score 0. -/
theorem analyze_empty_string :
    (analyze_resume []).wordCount = 0 ∧
    (analyze_resume []).readability = 1212 ∧
    ((analyze_resume []).readability : ℚ) / 10 = 121.2 ∧
    Sug.lowReadability ∉ (analyze_resume []).suggestions ∧
    (analyze_resume []).suggestions.length = 9 ∧
    (analyze_resume []).score = 0 := by
  refine ⟨by decide, by decide, ?_, by decide, by decide, by decide⟩
  have h : (analyze_resume []).readability = 1212 := by decide
  rw [h]
  norm_num

/-- Claim C7: the email regex matches jane.doe@example.com, does not match
jane.doe(at)example.com, and analyze appends the email suggestion exactly
when the regex finds no match in the text. -/
theorem email_check :
    emailSearch ("jane.doe@example.com".data) = true ∧
    emailSearch ("jane.doe(at)example.com".data) = false ∧
    ∀ l : List Char, (Sug.noEmail ∈ (analyze_resume l).suggestions ↔ emailSearch l = false) := by
  refine ⟨by decide, by decide, ?_⟩
  intro l
  rw [analyze_suggestions_eq]
  have h1 : Sug.noEmail ∉ sectionSugs (pyLower l) := by
    simp [sectionSugs]
  have h2 : Sug.noEmail ∉ lengthSugs (wordCount l) := by
    unfold lengthSugs
    split_ifs <;> simp
  have h3 : Sug.noEmail ∉ verbSugs (pyLower l) := by
    unfold verbSugs
    split_ifs <;> simp
  have h4 : Sug.noEmail ∉ keywordSugs (pyLower l) := by
    unfold keywordSugs
    split_ifs <;> simp
  have h6 : Sug.noEmail ∉ phoneSugs l := by
    unfold phoneSugs
    split_ifs <;> simp
  have h7 : Sug.noEmail ∉ readabilitySugs (fleschTenths l) := by
    unfold readabilitySugs
    split_ifs <;> simp
  have h5 : Sug.noEmail ∈ emailSugs l ↔ emailSearch l = false := by
    unfold emailSugs
    split_ifs with h <;> simp_all
  simp [List.mem_append, h1, h2, h3, h4, h5, h6, h7]

/-- Claim C6: the phone regex matches +1 555-123-4567, does not match 12345,
and analyze appends the phone suggestion exactly when the regex finds no
match in the text. -/
theorem phone_check :
    phoneSearch ("+1 555-123-4567".data) = true ∧
    phoneSearch ("12345".data) = false ∧
    ∀ l : List Char, (Sug.noPhone ∈ (analyze_resume l).suggestions ↔ phoneSearch l = false) := by
  refine ⟨by decide, by decide, ?_⟩
  intro l
  rw [analyze_suggestions_eq]
  have h1 : Sug.noPhone ∉ sectionSugs (pyLower l) := by
    simp [sectionSugs]
  have h2 : Sug.noPhone ∉ lengthSugs (wordCount l) := by
    unfold lengthSugs
    split_ifs <;> simp
  have h3 : Sug.noPhone ∉ verbSugs (pyLower l) := by
    unfold verbSugs
    split_ifs <;> simp
  have h4 : Sug.noPhone ∉ keywordSugs (pyLower l) := by
    unfold keywordSugs
    split_ifs <;> simp
  have h5 : Sug.noPhone ∉ emailSugs l := by
    unfold emailSugs
    split_ifs <;> simp
  have h7 : Sug.noPhone ∉ readabilitySugs (fleschTenths l) := by
    unfold readabilitySugs
    split_ifs <;> simp
  have h6 : Sug.noPhone ∈ phoneSugs l ↔ phoneSearch l = false := by
    unfold phoneSugs
    split_ifs with h <;> simp_all
  simp [List.mem_append, h1, h2, h3, h4, h5, h6, h7]

/-- Claim C5: the length rule appends tooShort exactly when the word count is
below 300, tooLong exactly when it exceeds 900 (the else branch), the two
length suggestions together occur once when the count is out of range and not
at all in [300, 900], and the word count of "Hello, World! 123" is 3. -/
theorem length_rule :
    (∀ l : List Char,
      (Sug.tooShort ∈ (analyze_resume l).suggestions ↔ wordCount l < 300) ∧
      (Sug.tooLong ∈ (analyze_resume l).suggestions ↔ (¬ wordCount l < 300 ∧ 900 < wordCount l)) ∧
      (analyze_resume l).suggestions.countP (fun s => s == Sug.tooShort || s == Sug.tooLong)
        = (if wordCount l < 300 then 1 else if 900 < wordCount l then 1 else 0)) ∧
    wordCount ("Hello, World! 123".data) = 3 := by
  refine ⟨?_, by decide⟩
  intro l
  have c1 : ∀ x ∈ sectionSugs (pyLower l), ¬(x == Sug.tooShort || x == Sug.tooLong) = true := by
    intro x hx
    simp only [sectionSugs, List.mem_map] at hx
    obtain ⟨s, _, rfl⟩ := hx
    simp
  have c3 : ∀ x ∈ verbSugs (pyLower l), ¬(x == Sug.tooShort || x == Sug.tooLong) = true := by
    unfold verbSugs
    split_ifs <;> simp
  have c4 : ∀ x ∈ keywordSugs (pyLower l), ¬(x == Sug.tooShort || x == Sug.tooLong) = true := by
    unfold keywordSugs
    split_ifs <;> simp
  have c5 : ∀ x ∈ emailSugs l, ¬(x == Sug.tooShort || x == Sug.tooLong) = true := by
    unfold emailSugs
    split_ifs <;> simp
  have c6 : ∀ x ∈ phoneSugs l, ¬(x == Sug.tooShort || x == Sug.tooLong) = true := by
    unfold phoneSugs
    split_ifs <;> simp
  have c7 : ∀ x ∈ readabilitySugs (fleschTenths l), ¬(x == Sug.tooShort || x == Sug.tooLong) = true := by
    unfold readabilitySugs
    split_ifs <;> simp
  have m1 : Sug.tooShort ∉ sectionSugs (pyLower l) := fun h => by
    have := c1 _ h
    simp_all
  have m1l : Sug.tooLong ∉ sectionSugs (pyLower l) := fun h => by
    have := c1 _ h
    simp_all
  refine ⟨?_, ?_, ?_⟩
  · rw [analyze_suggestions_eq]
    have h2 : Sug.tooShort ∈ lengthSugs (wordCount l) ↔ wordCount l < 300 := by
      unfold lengthSugs
      split_ifs <;> simp_all
    have h3 : Sug.tooShort ∉ verbSugs (pyLower l) := by
      unfold verbSugs
      split_ifs <;> simp
    have h4 : Sug.tooShort ∉ keywordSugs (pyLower l) := by
      unfold keywordSugs
      split_ifs <;> simp
    have h5 : Sug.tooShort ∉ emailSugs l := by
      unfold emailSugs
      split_ifs <;> simp
    have h6 : Sug.tooShort ∉ phoneSugs l := by
      unfold phoneSugs
      split_ifs <;> simp
    have h7 : Sug.tooShort ∉ readabilitySugs (fleschTenths l) := by
      unfold readabilitySugs
      split_ifs <;> simp
    simp [List.mem_append, m1, h2, h3, h4, h5, h6, h7]
  · rw [analyze_suggestions_eq]
    have h2 : Sug.tooLong ∈ lengthSugs (wordCount l) ↔ (¬ wordCount l < 300 ∧ 900 < wordCount l) := by
      unfold lengthSugs
      split_ifs with ha hb <;> simp_all
    have h3 : Sug.tooLong ∉ verbSugs (pyLower l) := by
      unfold verbSugs
      split_ifs <;> simp
    have h4 : Sug.tooLong ∉ keywordSugs (pyLower l) := by
      unfold keywordSugs
      split_ifs <;> simp
    have h5 : Sug.tooLong ∉ emailSugs l := by
      unfold emailSugs
      split_ifs <;> simp
    have h6 : Sug.tooLong ∉ phoneSugs l := by
      unfold phoneSugs
      split_ifs <;> simp
    have h7 : Sug.tooLong ∉ readabilitySugs (fleschTenths l) := by
      unfold readabilitySugs
      split_ifs <;> simp
    simp [List.mem_append, m1l, h2, h3, h4, h5, h6, h7]
  · rw [analyze_suggestions_eq]
    simp only [List.countP_append]
    rw [List.countP_eq_zero.mpr c1, List.countP_eq_zero.mpr c3, List.countP_eq_zero.mpr c4,
      List.countP_eq_zero.mpr c5, List.countP_eq_zero.mpr c6, List.countP_eq_zero.mpr c7]
    have h2 : (lengthSugs (wordCount l)).countP (fun s => s == Sug.tooShort || s == Sug.tooLong)
        = (if wordCount l < 300 then 1 else if 900 < wordCount l then 1 else 0) := by
      unfold lengthSugs
      split_ifs <;> rfl
    omega

/-- Claim C9: the score is 100 exactly when the suggestion list is empty, any
nonempty suggestion list caps the score at 85, and the only attainable score
values are 0, 14, 28, 42, 57, 71, 85 and 100. -/
theorem score_invariants (l : List Char) :
    ((analyze_resume l).score = 100 ↔ (analyze_resume l).suggestions = []) ∧
    ((analyze_resume l).suggestions ≠ [] → (analyze_resume l).score ≤ 85) ∧
    (analyze_resume l).score ∈ [0, 14, 28, 42, 57, 71, 85, 100] := by
  have hb := sugsLen_le_ten l
  have hsc := analyze_score_eq l
  have hemp : ((analyze_resume l).suggestions = []) ↔ (analyze_resume l).suggestions.length = 0 :=
    List.length_eq_zero.symm
  refine ⟨?_, ?_, ?_⟩
  · rw [hsc, hemp]
    generalize (analyze_resume l).suggestions.length = n at hb
    interval_cases n <;> decide
  · intro hne
    have hn0 : (analyze_resume l).suggestions.length ≠ 0 :=
      fun h => hne (List.length_eq_zero.mp h)
    rw [hsc]
    generalize (analyze_resume l).suggestions.length = n at hb hn0
    interval_cases n
    · exact absurd rfl hn0
    all_goals decide
  · rw [hsc]
    generalize (analyze_resume l).suggestions.length = n at hb
    interval_cases n <;> decide

/-- Witness for C9 at a concrete input with a nonempty suggestion list: the
score is at most 85 there. -/
theorem score_invariants_witness :
    (analyze_resume ("x".data)).suggestions ≠ [] ∧ (analyze_resume ("x".data)).score ≤ 85 :=
  ⟨by decide, (score_invariants ("x".data)).2.1 (by decide)⟩

/-- Claim C2: a text missing all four sections, under 300 words, with no
action verb, no tech keyword, no email match, no phone match and readability
below 50 gets exactly ten suggestions and score 0 (passed = 7 - 10 is
negative and the score is clamped at 0). -/
theorem all_checks_fail (l : List Char)
    (hsec : ∀ s ∈ required_sections, occursIn s (pyLower l) = false)
    (hwc : wordCount l < 300)
    (hverb : (action_verbs.any (fun v => occursIn v (pyLower l))) = false)
    (hkey : (tech_keywords.any (fun k => occursIn k (pyLower l))) = false)
    (hem : emailSearch l = false)
    (hph : phoneSearch l = false)
    (hrd : flesch_reading_ease l < 50) :
    (analyze_resume l).suggestions.length = 10 ∧ (analyze_resume l).score = 0 := by
  have hrd' : fleschTenths l < 500 := (fleschTenths_lt_iff l).mpr hrd
  have e1 : sectionSugs (pyLower l) = required_sections.map Sug.missingSection := by
    unfold sectionSugs
    rw [List.filter_eq_self.mpr]
    intro s hs
    rw [hsec s hs]
    rfl
  have e2 : lengthSugs (wordCount l) = [Sug.tooShort] := by
    unfold lengthSugs
    rw [if_pos hwc]
  have e3 : verbSugs (pyLower l) = [Sug.noVerbs] := by
    unfold verbSugs
    rw [hverb]
    rfl
  have e4 : keywordSugs (pyLower l) = [Sug.noKeywords] := by
    unfold keywordSugs
    rw [hkey]
    rfl
  have e5 : emailSugs l = [Sug.noEmail] := by
    unfold emailSugs
    rw [hem]
    rfl
  have e6 : phoneSugs l = [Sug.noPhone] := by
    unfold phoneSugs
    rw [hph]
    rfl
  have e7 : readabilitySugs (fleschTenths l) = [Sug.lowReadability] := by
    unfold readabilitySugs
    rw [if_pos hrd']
  have hlen : (analyze_resume l).suggestions.length = 10 := by
    rw [analyze_suggestions_eq, e1, e2, e3, e4, e5, e6, e7]
    rfl
  refine ⟨hlen, ?_⟩
  rw [analyze_score_eq, hlen]
  decide

/-- Witness for C2: the text of allFailText fails every check, yielding ten
suggestions and score 0. -/
theorem all_checks_fail_witness :
    wordCount allFailText < 300 ∧
    ((analyze_resume allFailText).suggestions.length = 10 ∧ (analyze_resume allFailText).score = 0) :=
  ⟨by decide,
    all_checks_fail allFailText (by decide) (by decide) (by decide) (by decide) (by decide)
      (by decide) ((fleschTenths_lt_iff allFailText).mp (by decide))⟩

/-- Claim C3: a text containing all four section names, with word count in
[300, 900], at least one action verb, at least one tech keyword, an email
match, a phone match and readability at least 50 gets an empty suggestion
list and score 100. -/
theorem all_checks_pass (l : List Char)
    (hsec : ∀ s ∈ required_sections, occursIn s (pyLower l) = true)
    (h300 : 300 ≤ wordCount l)
    (h900 : wordCount l ≤ 900)
    (hverb : (action_verbs.any (fun v => occursIn v (pyLower l))) = true)
    (hkey : (tech_keywords.any (fun k => occursIn k (pyLower l))) = true)
    (hem : emailSearch l = true)
    (hph : phoneSearch l = true)
    (hrd : 50 ≤ flesch_reading_ease l) :
    (analyze_resume l).suggestions = [] ∧ (analyze_resume l).score = 100 := by
  have hrd' : ¬ (fleschTenths l < 500) :=
    fun hcon => absurd ((fleschTenths_lt_iff l).mp hcon) (not_lt.mpr hrd)
  have e1 : sectionSugs (pyLower l) = [] := by
    unfold sectionSugs
    rw [List.filter_eq_nil_iff.mpr]
    · rfl
    · intro s hs
      rw [hsec s hs]
      simp
  have e2 : lengthSugs (wordCount l) = [] := by
    unfold lengthSugs
    rw [if_neg (by omega), if_neg (by omega)]
  have e3 : verbSugs (pyLower l) = [] := by
    unfold verbSugs
    rw [hverb]
    rfl
  have e4 : keywordSugs (pyLower l) = [] := by
    unfold keywordSugs
    rw [hkey]
    rfl
  have e5 : emailSugs l = [] := by
    unfold emailSugs
    rw [hem]
    rfl
  have e6 : phoneSugs l = [] := by
    unfold phoneSugs
    rw [hph]
    rfl
  have e7 : readabilitySugs (fleschTenths l) = [] := by
    unfold readabilitySugs
    rw [if_neg hrd']
  have hnil : (analyze_resume l).suggestions = [] := by
    rw [analyze_suggestions_eq, e1, e2, e3, e4, e5, e6, e7]
    rfl
  refine ⟨hnil, ?_⟩
  rw [analyze_score_eq, hnil]
  decide

/-- Witness for C3: the 301-word text of allPassText passes every check,
yielding no suggestions and score 100. -/
theorem all_checks_pass_witness :
    300 ≤ wordCount allPassText ∧
    ((analyze_resume allPassText).suggestions = [] ∧ (analyze_resume allPassText).score = 100) :=
  ⟨by decide,
    all_checks_pass allPassText (by decide) (by decide) (by decide) (by decide) (by decide)
      (by decide) (by decide)
      (le_of_not_lt (fun hcon =>
        absurd ((fleschTenths_lt_iff allPassText).mpr hcon)
          (by decide : ¬ (fleschTenths allPassText < 500))))⟩

/-- Claim C4: the fallback readability scorer returns the Flesch formula
206.835 - 1.015 * (words / sentences) - 84.6 * (syllables / words) rounded to
one decimal place, where sentences is the count of the characters . ! ? with
minimum 1, words is the count of word-character runs with minimum 1, and
syllables is the total vowel count over whitespace-split tokens with minimum
1; and the readability reported by analyze (in tenths) is exactly this
value. -/
theorem flesch_formula (l : List Char) :
    flesch_reading_ease l =
      round1 ((206.835 : ℚ)
        - (1.015 : ℚ) * (((max 1 (wordCount l) : ℕ) : ℚ) / ((max 1 (sentenceMarks l) : ℕ) : ℚ))
        - (84.6 : ℚ) * (((max 1 (syllableSum l) : ℕ) : ℚ) / ((max 1 (wordCount l) : ℕ) : ℚ))) ∧
    ((analyze_resume l).readability : ℚ) / 10 = flesch_reading_ease l := by
  constructor
  · simp only [flesch_reading_ease, orOne_eq_max]
  · rw [analyze_readability_eq]
    exact (flesch_tenths_spec l).symm
